import Mathlib

/-!
A shallow embedding of the TARDIS Go Haxe backend's type-lowering engine
(`haxe/types.go`): the source-type data model, the lowering function
`LangType`, the conversion engine `Convert`, `ChangeType`, `TypeAssert`,
and the denotations of the tables emitted by `EmitTypeInfo`.

Components of the repository that the given source only calls into
(`pogo.MakeID`, `haxeStdSizes`, `intTypeCoersion`, `haxeStringConst`,
`pogo.LogTypeUse`, `IndirectValue`) are modelled from the specification;
each such definition carries a doc comment starting `Modelled from the
spec:`.
-/

/-- Kinds of the front end's basic types (go/types BasicKind). -/
inductive BasicKind where
  | invalid
  | bool
  | int
  | int8
  | int16
  | int32
  | int64
  | uint
  | uint8
  | uint16
  | uint32
  | uint64
  | uintptr
  | float32
  | float64
  | complex64
  | complex128
  | string
  | unsafePointer
  | untypedBool
  | untypedInt
  | untypedRune
  | untypedFloat
  | untypedComplex
  | untypedString
  | untypedNil
deriving DecidableEq, Repr

/-- The front end's type variants relevant to lowering (go/types and ssa types).
`named` carries the type's full rendered name (its `String()`) and its underlying
type; `iterator` stands for the internal `*ssa.opaqueType` used by map iteration;
`unhandled` stands for any other dynamic type reaching `LangType`'s default case,
carrying its reflect type string. -/
inductive GoType where
  | basic (k : BasicKind)
  | iface
  | named (name : String) (under : GoType)
  | chan (elem : GoType)
  | map (key : GoType) (elem : GoType)
  | slice (elem : GoType)
  | array (n : Nat) (elem : GoType)
  | struct (fields : List GoType)
  | tuple (elems : List GoType)
  | pointer (elem : GoType)
  | signature
  | iterator
  | unhandled (rtyp : String)

/-- Underlying-type reduction (go/types `Underlying()`): named types reduce to their
defining type.  The front end guarantees the reduction terminates in a non-named
variant; the recursive chase computes that reduction for every term of the model. -/
def GoType.underlying : GoType → GoType
  | .named _ u => u.underlying
  | t => t

theorem GoType.sizeOf_underlying_le : (t : GoType) → sizeOf t.underlying ≤ sizeOf t
  | .basic _ => by simp [GoType.underlying]
  | .iface => by simp [GoType.underlying]
  | .named n u => by
      have h := GoType.sizeOf_underlying_le u
      simp only [GoType.underlying, GoType.named.sizeOf_spec]
      omega
  | .chan _ => by simp [GoType.underlying]
  | .map _ _ => by simp [GoType.underlying]
  | .slice _ => by simp [GoType.underlying]
  | .array _ _ => by simp [GoType.underlying]
  | .struct _ => by simp [GoType.underlying]
  | .tuple _ => by simp [GoType.underlying]
  | .pointer _ => by simp [GoType.underlying]
  | .signature => by simp [GoType.underlying]
  | .iterator => by simp [GoType.underlying]
  | .unhandled _ => by simp [GoType.underlying]

/-- Splits a character list at every occurrence of the separator (strings.Split with
a single-character separator: the result always has one more part than separators). -/
def splitOnChar (sep : Char) : List Char → List (List Char)
  | [] => [[]]
  | c :: cs =>
    match splitOnChar sep cs with
    | [] => [[c]]
    | h :: t => if c = sep then [] :: h :: t else (c :: h) :: t

/-- Replaces every underscore by a dot (strings.Replace(s, "_", ".", -1)). -/
def underscoresToDots (l : List Char) : List Char :=
  l.map fun c => if c = '_' then '.' else c

/-- Replaces every leftmost non-overlapping occurrence of three consecutive dots by
a single dot (strings.Replace(s, "...", ".", -1)). -/
def tripleDotsToDot : List Char → List Char
  | '.' :: '.' :: '.' :: rest => '.' :: tripleDotsToDot rest
  | c :: rest => c :: tripleDotsToDot rest
  | [] => []

/-- Port of haxe.getHaxeClass: recognises Go type names of the form `.../_pkg.Ttype`
as bindings to native Haxe classes and returns the Haxe class name, else "".
(Go indexes `fullname[0]` and `s[0]`, which would panic on an empty string; type
renderings produced by the front end are never empty, and the model returns ""
there.) -/
def getHaxeClass (fullname : String) : String :=
  match fullname.data with
  | [] => ""
  | c0 :: _ =>
    if c0 = '*' then ""
    else
      let bits := splitOnChar '/' fullname.data
      match bits.getLastD [] with
      | [] => ""
      | c1 :: srest =>
        if c1 = '_' then
          let splits := splitOnChar '.' (c1 :: srest)
          if splits.length = 2 then
            let goType := (splits.getLastD []).drop 1
            String.mk (tripleDotsToDot (underscoresToDots goType))
          else ""
        else ""

/-- Severity of a diagnostics entry (pogo.LogWarning / pogo.LogError). -/
inductive LogLevel where
  | warning
  | error
deriving DecidableEq, Repr

/-- One diagnostics entry: severity and message text. -/
structure LogMsg where
  level : LogLevel
  msg : String
deriving DecidableEq, Repr

/-- Modelled from the spec: pogo.MakeID (outside the given source) sanitises an
identifier for the target language; it is the identity on the plain alphanumeric
names used here. -/
def MakeID (s : String) : String := s

/-- Modelled from the spec: the byte size of a basic kind under the backend's
32-bit layout (haxeStdSizes, outside the given source). -/
def basicKindSize : BasicKind → Nat
  | .bool | .int8 | .uint8 => 1
  | .int16 | .uint16 => 2
  | .int64 | .uint64 | .float64 | .complex64 => 8
  | .complex128 => 16
  | .string => 8
  | _ => 4

mutual
/-- Modelled from the spec: haxeStdSizes.Sizeof (outside the given source) — byte
sizes for the backend's 32-bit layout; composite sizes are simplified (no alignment
padding), which no claim depends on. -/
def Sizeof : GoType → Nat
  | .basic k => basicKindSize k
  | .iface => 8
  | .named _ u => Sizeof u
  | .chan _ => 4
  | .map _ _ => 4
  | .slice _ => 16
  | .array n e => n * Sizeof e
  | .struct fs => sizeOfFields fs
  | .tuple es => sizeOfFields es
  | .pointer _ => 4
  | .signature => 4
  | .iterator => 4
  | .unhandled _ => 4

/-- Modelled from the spec: total size of a list of field types (padding ignored). -/
def sizeOfFields : List GoType → Nat
  | [] => 0
  | t :: ts => Sizeof t + sizeOfFields ts
end

/-- Modelled from the spec: haxe.arrayOffsetCalc (outside the given source) renders
the per-element address multiplier used in slice construction. -/
def arrayOffsetCalc (t : GoType) : String := "*" ++ toString (Sizeof t)

/-- Assembles the anonymous-record fields of a lowered tuple: positional names
r0,r1,… joined with commas, concatenating the per-element diagnostics in order. -/
def tupleFields (parts : List (String × List LogMsg)) : String × List LogMsg :=
  (String.intercalate ","
      ((parts.enum).map fun p => MakeID ("r" ++ toString p.1) ++ ":" ++ p.2.1),
   (parts.map Prod.snd).flatten)

/-- Modelled from the spec: pogo.IsValidInPogo (outside the given source) is the
front end's validity filter; every variant present in this model is one it
accepts. -/
def IsValidInPogo (_ : GoType) : Bool := true

/-- Port of haxe.langType.LangType: lowers a source type to a Haxe type name, or to
a Haxe zero-value expression when `retInitVal` is true, together with the
diagnostics logged during the call (the source logs through pogo side effects; the
model returns them alongside the text). -/
def LangType (t : GoType) (retInitVal : Bool) : String × List LogMsg :=
  if IsValidInPogo t then
    match t with
    | .basic k =>
      match k with
      | .bool | .untypedBool => (if retInitVal then "false" else "Bool", [])
      | .string | .untypedString => (if retInitVal then "\"\"" else "String", [])
      | .float64 | .float32 | .untypedFloat => (if retInitVal then "0.0" else "Float", [])
      | .complex64 | .complex128 | .untypedComplex =>
        (if retInitVal then "new Complex(0.0,0.0)" else "Complex", [])
      | .int | .int8 | .int16 | .int32 | .untypedRune
      | .uint8 | .uint16 | .uint | .uint32 =>
        (if retInitVal then "0" else "Int", [])
      | .int64 | .uint64 => (if retInitVal then "GOint64.make(0,0)" else "GOint64", [])
      | .untypedInt =>
        ("UNTYPED_INT", [⟨.warning, "haxe.LangType() types.UntypedInt is ambiguous"⟩])
      | .unsafePointer =>
        (if retInitVal then "null" else "Pointer", [⟨.warning, "Unsafe Pointer"⟩])
      | .uintptr => (if retInitVal then "null" else "Dynamic", [])
      | .invalid | .untypedNil =>
        (if retInitVal then "null" else "Dynamic",
         [⟨.warning, "haxe.LangType() unrecognised basic type, Dynamic assumed"⟩])
    | .iface => (if retInitVal then "null" else "Interface", [])
    | .named nm u =>
      let haxeName := getHaxeClass nm
      if haxeName ≠ "" then (if retInitVal then "null" else haxeName, [])
      else LangType u retInitVal
    | .chan e =>
      let r := LangType e false
      (if retInitVal then "new Channel<" ++ r.1 ++ ">(1)" else "Channel<" ++ r.1 ++ ">", r.2)
    | .map k e =>
      if retInitVal then
        let rk := LangType k true
        let re := LangType e true
        ("new GOmap(" ++ rk.1 ++ "," ++ re.1 ++ ")", rk.2 ++ re.2)
      else ("GOmap", [])
    | .slice e =>
      if retInitVal then
        ("new Slice(new Pointer(new Object(0)),0,0,0,1" ++ arrayOffsetCalc e.underlying ++ ")", [])
      else ("Slice", [])
    | .array n e =>
      if retInitVal then ("new Object(" ++ toString (Sizeof (GoType.array n e)) ++ ")", [])
      else ("Object", [])
    | .struct fs =>
      if retInitVal then
        ("new Object(" ++ toString (Sizeof (GoType.struct fs).underlying) ++ ")", [])
      else ("Object", [])
    | .tuple es =>
      match es with
      | [] => ("", [])
      | [e] => LangType e.underlying retInitVal
      | e1 :: e2 :: rest =>
        let parts :=
          (e1 :: e2 :: rest).attach.map fun ep => LangType ep.1.underlying retInitVal
        let fs := tupleFields parts
        ("\x7b" ++ fs.1 ++ "\x7d", fs.2)
    | .pointer _ =>
      if retInitVal then ("null", []) else ("Pointer", [])
    | .signature =>
      if retInitVal then ("null", []) else ("Closure", [])
    | .iterator => (if retInitVal then "null" else "Dynamic", [])
    | .unhandled rTyp =>
      ("UNKNOWN_LANGTYPE",
       [⟨.error, "haxe.LangType() internal error, unhandled non-basic type: " ++ rTyp⟩])
  else ("UNKNOWN_LANGTYPE", [])
termination_by sizeOf t
decreasing_by
  all_goals simp_wf
  all_goals try omega
  · have h1 := GoType.sizeOf_underlying_le e
    omega
  · have h1 := GoType.sizeOf_underlying_le ep.1
    have h2 := List.sizeOf_lt_of_mem ep.2
    simp only [List.cons.sizeOf_spec] at h2
    omega

/-- An SSA operand as the backend sees it: its front-end type (ssa.Value.Type())
together with the target-language expression the backend renders for it.
Modelled from the spec: `IndirectValue` (outside the given source) renders an
operand; the model carries that rendering in the `text` field. -/
structure SsaValue where
  typ : GoType
  text : String

/-- Modelled from the spec: haxe.IndirectValue (outside the given source) returns
the Haxe expression for an operand; the model reads it off the operand. -/
def IndirectValue (v : SsaValue) : String := v.text

/-- Basic kinds carrying go/types' IsUnsigned information flag. -/
def isUnsignedKind : BasicKind → Bool
  | .uint | .uint8 | .uint16 | .uint32 | .uint64 | .uintptr => true
  | _ => false

/-- Modelled from the spec: haxe.intTypeCoersion (outside the given source) applies
the destination type's bit-width/signedness coercion — masking or sign-extension to
the destination's width, rendered as a runtime helper call; kinds that are already
the native 32-bit signed representation pass through. -/
def intTypeCoersion (t : GoType) (e : String) : String :=
  match t.underlying with
  | .basic .int8 => "Force.toInt8(" ++ e ++ ")"
  | .basic .int16 => "Force.toInt16(" ++ e ++ ")"
  | .basic .uint8 => "Force.toUint8(" ++ e ++ ")"
  | .basic .uint16 => "Force.toUint16(" ++ e ++ ")"
  | .basic .uint => "Force.toUint32(" ++ e ++ ")"
  | .basic .uint32 => "Force.toUint32(" ++ e ++ ")"
  | _ => e

/-- A result standing for a Go runtime panic of the backend itself (a failed Go type
assertion in haxe.Convert); unreachable when the caller respects the invariant that
`langType` is the lowering of `destType` and `srcTyp` describes the operand. -/
def goPanicResult : String × List LogMsg := ("GO PANIC", [])

/-- Port of haxe.langType.Convert: emits the Haxe statement(s) implementing a Go
conversion of operand `v` to destination type `destType`, whose lowered Haxe type
the caller passes as `langType`.  Diagnostics (the source logs through pogo) are
returned alongside the text; an error situation emits no code (empty string). -/
def Convert (register langType : String) (destType : GoType) (v : SsaValue) :
    String × List LogMsg :=
  let src := LangType v.typ.underlying false
  let srcTyp := src.1
  let srcLogs := src.2
  if srcTyp = langType ∧ langType ≠ "Float" then
    (register ++ "=" ++ IndirectValue v ++ ";", srcLogs)
  else
    match langType with
    | "Dynamic" =>
      let vInt := IndirectValue v
      let vInt := if srcTyp = "GOint64" then "GOint64.toInt(" ++ vInt ++ ")" else vInt
      (register ++ "=" ++ vInt ++ ";", srcLogs)
    | "String" =>
      match srcTyp with
      | "Slice" =>
        match v.typ.underlying with
        | .slice e =>
          match e.underlying with
          | .basic .int32 =>
            ("\x7bvar _r:Slice=Go_haxegoruntime_RRunes2RRaw.callFromRT(this._goroutine," ++
               IndirectValue v ++ ");" ++ register ++ "=\"\";for(_i in 0..._r.len())" ++
               register ++ "+=String.fromCharCode(_r.itemAddr(_i).load_int32());\x7d;", srcLogs)
          | .basic .uint8 =>
            (register ++ "=Force.toRawString(this._goroutine," ++ IndirectValue v ++ ");",
             srcLogs)
          | _ =>
            ("", srcLogs ++
              [⟨.error, "haxe.Convert() - Unexpected slice type to convert to String"⟩])
        | _ => goPanicResult
      | "Int" =>
        ("\x7bvar _r:Slice=Go_haxegoruntime_RRune2RRaw.callFromRT(this._goroutine," ++
           IndirectValue v ++ ");" ++ register ++ "=\"\";for(_i in 0..._r.len())" ++
           register ++ "+=String.fromCharCode(_r.itemAddr(_i).load_int32());\x7d;", srcLogs)
      | "GOint64" =>
        ("\x7bvar _r:Slice=Go_haxegoruntime_RRune2RRaw.callFromRT(this._goroutine,GOint64.toInt(" ++
           IndirectValue v ++ "));" ++ register ++ "=\"\";for(_i in 0..._r.len())" ++
           register ++ "+=String.fromCharCode(_r.itemAddr(_i).load_int32());\x7d;", srcLogs)
      | "Dynamic" =>
        (register ++ "=cast(" ++ IndirectValue v ++ ",String);", srcLogs)
      | _ =>
        ("", srcLogs ++
          [⟨.error, "haxe.Convert() - Unexpected type to convert to String: " ++ srcTyp⟩])
    | "Slice" =>
      if srcTyp ≠ "String" then
        ("", srcLogs ++
          [⟨.error, "haxe.Convert() - Unexpected type to convert to Slice ([]rune or []byte): " ++
             srcTyp⟩])
      else
        match destType.underlying with
        | .slice e =>
          match e.underlying with
          | .basic .int32 =>
            (register ++
               "=Go_haxegoruntime_UUTTFF8toRRunes.callFromRT(this._goroutine,Force.toUTF8slice(this._goroutine," ++
               IndirectValue v ++ "));", srcLogs)
          | .basic .uint8 =>
            (register ++ "=Force.toUTF8slice(this._goroutine," ++ IndirectValue v ++ ");",
             srcLogs)
          | _ =>
            ("", srcLogs ++
              [⟨.error,
                 "haxe.Convert() - Unexpected slice elementto convert to Slice ([]rune/[]byte): " ++
                   srcTyp⟩])
        | _ => goPanicResult
    | "Int" =>
      let vInt :=
        match srcTyp with
        | "GOint64" => "GOint64.toInt(" ++ IndirectValue v ++ ")"
        | "Float" =>
          "\x7bvar _f:Float=" ++ IndirectValue v ++ ";_f>=0?Math.floor(_f):Math.ceil(_f);\x7d"
        | _ => "cast(" ++ IndirectValue v ++ "," ++ langType ++ ")"
      (register ++ "=" ++ intTypeCoersion destType vInt ++ ";", srcLogs)
    | "GOint64" =>
      match srcTyp with
      | "Int" => (register ++ "=GOint64.ofInt(" ++ IndirectValue v ++ ");", srcLogs)
      | "Float" =>
        match destType.underlying with
        | .basic k =>
          if isUnsignedKind k then
            (register ++ "=GOint64.ofUFloat(" ++ IndirectValue v ++ ");", srcLogs)
          else
            (register ++ "=GOint64.ofFloat(" ++ IndirectValue v ++ ");", srcLogs)
        | _ => goPanicResult
      | "Dynamic" => (register ++ "=" ++ IndirectValue v ++ ";", srcLogs)
      | _ => (register ++ "=cast(" ++ IndirectValue v ++ "," ++ langType ++ ");", srcLogs)
    | "Float" =>
      match srcTyp with
      | "GOint64" =>
        match v.typ.underlying with
        | .basic k =>
          if isUnsignedKind k then
            (register ++ "=GOint64.toUFloat(" ++ IndirectValue v ++ ");", srcLogs)
          else
            (register ++ "=GOint64.toFloat(" ++ IndirectValue v ++ ");", srcLogs)
        | _ => goPanicResult
      | "Int" =>
        match v.typ.underlying with
        | .basic k =>
          if isUnsignedKind k then
            (register ++ "=GOint64.toUFloat(GOint64.make(0," ++ IndirectValue v ++ "));",
             srcLogs)
          else
            (register ++ "=" ++ IndirectValue v ++ ";", srcLogs)
        | _ => goPanicResult
      | "Float" =>
        match v.typ.underlying, destType.underlying with
        | .basic .float64, .basic .float32 =>
          (register ++ "=Force.toFloat32(" ++ IndirectValue v ++ ");", srcLogs)
        | _, _ => (register ++ "=" ++ IndirectValue v ++ ";", srcLogs)
      | _ => (register ++ "=cast(" ++ IndirectValue v ++ "," ++ langType ++ ");", srcLogs)
    | "UnsafePointer" =>
      (register ++ "=" ++ IndirectValue v ++ ";",
       srcLogs ++ [⟨.warning, "converting a pointer to an Unsafe Pointer"⟩])
    | _ =>
      if "Array<".isPrefixOf srcTyp then
        ("", srcLogs ++
          [⟨.error, "haxe.Convert() - No way to convert to " ++ langType ++ " from " ++
             srcTyp ++ " "⟩])
      else (register ++ "=cast(" ++ IndirectValue v ++ "," ++ langType ++ ");", srcLogs)

/-- Modelled from the spec: the rendered name of a basic kind
(go/types BasicType.String(), external to the repository). -/
def basicKindStr : BasicKind → String
  | .invalid => "invalid type"
  | .bool => "bool"
  | .int => "int"
  | .int8 => "int8"
  | .int16 => "int16"
  | .int32 => "int32"
  | .int64 => "int64"
  | .uint => "uint"
  | .uint8 => "uint8"
  | .uint16 => "uint16"
  | .uint32 => "uint32"
  | .uint64 => "uint64"
  | .uintptr => "uintptr"
  | .float32 => "float32"
  | .float64 => "float64"
  | .complex64 => "complex64"
  | .complex128 => "complex128"
  | .string => "string"
  | .unsafePointer => "unsafe.Pointer"
  | .untypedBool => "untyped bool"
  | .untypedInt => "untyped int"
  | .untypedRune => "untyped rune"
  | .untypedFloat => "untyped float"
  | .untypedComplex => "untyped complex"
  | .untypedString => "untyped string"
  | .untypedNil => "untyped nil"

mutual
/-- Modelled from the spec: the front end's type rendering (types.Type.String(),
external to the repository).  Named types render their full name; composites render
Go syntax (struct/tuple field names are omitted in the model). -/
def GoType.str : GoType → String
  | .basic k => basicKindStr k
  | .iface => "interface\x7b\x7d"
  | .named n _ => n
  | .chan e => "chan " ++ e.str
  | .map k e => "map[" ++ k.str ++ "]" ++ e.str
  | .slice e => "[]" ++ e.str
  | .array n e => "[" ++ toString n ++ "]" ++ e.str
  | .struct fs => "struct\x7b" ++ strFields fs ++ "\x7d"
  | .tuple es => "(" ++ strFields es ++ ")"
  | .pointer e => "*" ++ e.str
  | .signature => "func()"
  | .iterator => "iter"
  | .unhandled r => r

/-- Modelled from the spec: rendering of a struct's or tuple's member types. -/
def strFields : List GoType → String
  | [] => ""
  | [t] => t.str
  | t :: ts => t.str ++ "; " ++ strFields ts
end

mutual
/-- Modelled from the spec: the front end's type-identity query (types.Identical,
external to the repository): structural identity, with named (defined) types
identical only when they are the same defined type. -/
def Identical : GoType → GoType → Bool
  | .basic k, .basic k' => k == k'
  | .iface, .iface => true
  | .named n u, .named n' u' => n == n' && Identical u u'
  | .chan e, .chan e' => Identical e e'
  | .map k e, .map k' e' => Identical k k' && Identical e e'
  | .slice e, .slice e' => Identical e e'
  | .array n e, .array n' e' => n == n' && Identical e e'
  | .struct fs, .struct fs' => IdenticalList fs fs'
  | .tuple es, .tuple es' => IdenticalList es es'
  | .pointer e, .pointer e' => Identical e e'
  | .signature, .signature => true
  | .iterator, .iterator => true
  | .unhandled r, .unhandled r' => r == r'
  | _, _ => false

/-- Modelled from the spec: pointwise identity of member-type lists. -/
def IdenticalList : List GoType → List GoType → Bool
  | [], [] => true
  | t :: ts, t' :: ts' => Identical t t' && IdenticalList ts ts'
  | _, _ => false
end

/-- True exactly for named (defined) types. -/
def GoType.isNamed : GoType → Bool
  | .named _ _ => true
  | _ => false

/-- Modelled from the spec: the front end's assignability query (types.AssignableTo,
external to the repository).  Per the Go specification, x of type V is assignable to
T when V and T are identical; the further cases (identical underlying types with at
least one of the two not a defined type; interface destinations — every type
implements the method-less interface of this model) extend the relation beyond
identity. -/
def AssignableTo (V T : GoType) : Bool :=
  Identical V T
    || (Identical V.underlying T.underlying && (!V.isNamed || !T.isNamed))
    || (match T.underlying with | .iface => true | _ => false)

/-- Modelled from the spec: pogo.LogTypeUse (outside the given source) ensures the
type is in the Type Encounter Registry and returns its integer ID rendered as text
(IDs are assigned once, on first encounter, and ID 0 is reserved). -/
def LogTypeUse (reg : List (GoType × Nat)) (t : GoType) : String :=
  match reg.find? fun p => Identical p.1 t with
  | some p => toString p.2
  | none => toString (reg.length + 1)

/-- Port of haxe.langType.TypeAssert: emits the type-assertion statement, routing
through Interface.assertOk for the two-result form and Interface.assert for the
assert-or-abort form; an empty destination register emits nothing. -/
def TypeAssert (reg : List (GoType × Nat)) (register : String) (v : SsaValue)
    (assertedType : GoType) (commaOk : Bool) : String :=
  if register = "" then ""
  else if commaOk then
    register ++ "=Interface.assertOk(" ++ LogTypeUse reg assertedType ++ "," ++
      IndirectValue v ++ ");"
  else
    register ++ "=Interface.assert(" ++ LogTypeUse reg assertedType ++ "," ++
      IndirectValue v ++ ");"

/-- Modelled from the spec: haxe.LangName (outside the given source) builds the
target function name from the package/receiver part and the function name via
identifier sanitisation. -/
def LangName (p o : String) : String := MakeID p ++ "_" ++ MakeID o

/-- The operand of ChangeType: either an ssa.Function (carrying its receiver type
string when it is a method, else its package name when present) or an ordinary
value. -/
inductive ChangeTypeArg where
  | func (recvType : Option String) (pkg : Option String) (fname : String)
  | value (v : SsaValue)

/-- Port of haxe.langType.ChangeType: a value-preserving type change.  Functions
become closures on their dispatch wrapper; destinations mapped to a native Haxe
class unwrap interfaces or cast; unsafe-pointer sources receiving a non-native
destination copy a freshly zeroed value of the destination type; everything else is
a plain copy. -/
def ChangeType (register : String) (regTyp : GoType) (v : ChangeTypeArg) : String :=
  match v with
  | .func recvType pkg fname =>
    let pf :=
      match recvType with
      | some rt => rt
      | none => match pkg with | some p => p | none => ""
    register ++ "=new Closure(Go_" ++ LangName pf fname ++ ".call,[]);"
  | .value val =>
    let hType := getHaxeClass regTyp.str
    if hType ≠ "" then
      match val.typ.underlying with
      | .iface => register ++ "=" ++ IndirectValue val ++ ".val;"
      | _ => register ++ "=cast " ++ IndirectValue val ++ ";"
    else
      match val.typ.underlying with
      | .basic .unsafePointer => register ++ "=" ++ (LangType regTyp true).1 ++ ";"
      | _ => register ++ "=" ++ IndirectValue val ++ ";"

/-- Removes every leading and trailing occurrence of the character (strings.Trim
with a one-character cutset). -/
def trimChar (c : Char) (l : List Char) : List Char :=
  ((l.dropWhile (· = c)).reverse.dropWhile (· = c)).reverse

/-- Port of the scanning loop of haxe.preprocessTypeName: escapes orphan double
quotes, leaving already-backslash-escaped characters alone (the Bool is the
`hadbackslash` state). -/
def ppName : Bool → List Char → List Char
  | _, [] => []
  | true, c :: rest => c :: ppName false rest
  | false, c :: rest =>
    if c = '"' then '\\' :: '"' :: ppName false rest
    else if c = '\\' then c :: ppName true rest
    else c :: ppName false rest

/-- Port of haxe.preprocessTypeName: trims surrounding double quotes, then escapes
orphan double quotes in the remaining content. -/
def preprocessTypeName (v : String) : String :=
  String.mk (ppName false (trimChar '"' v.data))

/-- Modelled from the spec: haxe.haxeStringConst (outside the given source) renders
a Go string constant (at the use sites modelled here, backtick-quoted) as a Haxe
double-quoted string literal. -/
def haxeStringConst (s : String) : String :=
  "\"" ++ String.mk (trimChar '\x60' s.data) ++ "\""

/-- The key rendered for a registered type in the emitted typIDs map:
`haxeStringConst("` ++ "`" ++ `"+preprocessTypeName(t.String())+"` ++ "`" ++ `")`. -/
def renderName (t : GoType) : String :=
  haxeStringConst ("`" ++ preprocessTypeName t.str ++ "`")

/-- Port of the duplicate marker of EmitTypeInfo's typIDs loop:
`fmt.Sprintf("%s (duplicate type name! this id=%d)\"", nam[:len(nam)-1], v)`
(the byte slicing nam[:len(nam)-1] drops the final character: rendered names end in
an ASCII double quote). -/
def dupTag (nam : String) (id : Nat) : String :=
  String.mk nam.data.dropLast ++ " (duplicate type name! this id=" ++ toString id ++ ")\""

/-- The entries of the emitted `typIDs:Map<String,Int>` literal: for each registered
type in registry order, its rendered name — tagged as a duplicate when an earlier
entry already rendered identically (the `deDup` set of EmitTypeInfo, carried here as
`seen`) — paired with its ID.  Entries whose rendered name is empty are skipped, as
in the source. -/
def typIDTable : List (GoType × Nat) → List String → List (String × Nat)
  | [], _ => []
  | (t, v) :: rest, seen =>
    let nam := renderName t
    if nam.length ≠ 0 then
      if nam ∈ seen then (dupTag nam v, v) :: typIDTable rest seen
      else (nam, v) :: typIDTable rest (nam :: seen)
    else typIDTable rest seen

/-- The function denoted by the emitted `isIdentical(v,t)` switch: true when the two
IDs are equal; otherwise true exactly when the registry holds types with those IDs
for which the front end's identity query holds (the emitted case arms are the pairs
with distinct IDs satisfying types.Identical; registry IDs are unique by
construction, so the nested switch denotes this any-pair search). -/
def emittedIsIdentical (reg : List (GoType × Nat)) (v t : Nat) : Bool :=
  if v = t then true
  else reg.any fun V => V.2 == v && reg.any fun T => T.2 == t && V.2 != T.2 && Identical V.1 T.1

/-- The function denoted by the emitted `isAssignableTo(v,t)` switch, built like
`emittedIsIdentical` from the front end's assignability query. -/
def emittedIsAssignableTo (reg : List (GoType × Nat)) (v t : Nat) : Bool :=
  if v = t then true
  else reg.any fun V => V.2 == v && reg.any fun T => T.2 == t && V.2 != T.2 && AssignableTo V.1 T.1

/-- The integer-destination conversion as the claim words it (the spec's words, for
comparison with the source's Convert): every source branch routes its
branch-specific expression through the destination's bit-width/signedness coercion
before assignment — 64-bit-emulated sources through GOint64.toInt, floating-point
sources through the floor/ceil truncation toward zero, anything else through a
cast. -/
def convertToIntSpec (register : String) (destType : GoType) (v : SsaValue) : String :=
  let srcTyp := (LangType v.typ.underlying false).1
  let vInt :=
    match srcTyp with
    | "GOint64" => "GOint64.toInt(" ++ IndirectValue v ++ ")"
    | "Float" =>
      "\x7bvar _f:Float=" ++ IndirectValue v ++ ";_f>=0?Math.floor(_f):Math.ceil(_f);\x7d"
    | _ => "cast(" ++ IndirectValue v ++ ",Int)"
  register ++ "=" ++ intTypeCoersion destType vInt ++ ";"

/-- The logging performed by a LangType call itself, read off the LogWarning and
LogError call sites of the source (lines 54, 57, 68 and 187 of haxe/types.go):
warnings for the ambiguous untyped integer, the unsafe pointer and unrecognised
basic kinds; an error for unhandled non-basic dynamic types. -/
def localLog : GoType → Option LogLevel
  | .basic .untypedInt => some .warning
  | .basic .unsafePointer => some .warning
  | .basic .invalid => some .warning
  | .basic .untypedNil => some .warning
  | .unhandled _ => some .error
  | _ => none

/-- The substituted values that the source's own comments (lines 55 and 191 of
haxe/types.go) mark as guaranteed to fail the target language's compilation. -/
def FailsHaxeCompilation (s : String) : Prop :=
  s = "UNTYPED_INT" ∨ s = "UNKNOWN_LANGTYPE"

/-- C1: every basic integer kind of width at most 32 bits (signed or unsigned,
including the untyped-rune default) lowers to the native type name "Int" with zero
value "0", and the 64-bit kinds Int64 and Uint64 lower to the paired-word emulation
type "GOint64" with zero value "GOint64.make(0,0)". -/
theorem c1_small_ints_lower_to_Int_and_64bit_to_GOint64 :
    (∀ k ∈ ([.int, .int8, .int16, .int32, .untypedRune, .uint8, .uint16, .uint,
        .uint32] : List BasicKind),
      LangType (.basic k) false = ("Int", []) ∧ LangType (.basic k) true = ("0", []))
    ∧ ∀ k ∈ ([.int64, .uint64] : List BasicKind),
      LangType (.basic k) false = ("GOint64", []) ∧
        LangType (.basic k) true = ("GOint64.make(0,0)", []) := by
  constructor
  · intro k hk
    fin_cases hk <;>
      exact ⟨by simp [LangType, IsValidInPogo], by simp [LangType, IsValidInPogo]⟩
  · intro k hk
    fin_cases hk <;>
      exact ⟨by simp [LangType, IsValidInPogo], by simp [LangType, IsValidInPogo]⟩

/-- Witness for C1 at the concrete kinds Int32 and Int64. -/
theorem c1_small_ints_lower_to_Int_and_64bit_to_GOint64_witness :
    (LangType (.basic .int32) false = ("Int", []) ∧
      LangType (.basic .int32) true = ("0", []))
    ∧ (LangType (.basic .int64) false = ("GOint64", []) ∧
      LangType (.basic .int64) true = ("GOint64.make(0,0)", [])) :=
  ⟨c1_small_ints_lower_to_Int_and_64bit_to_GOint64.1 .int32 (by decide),
   c1_small_ints_lower_to_Int_and_64bit_to_GOint64.2 .int64 (by decide)⟩

/-- C2: for every pointer type, LangType with wantZeroValue=true returns "null"
without recursing into the pointed-to type (the result does not depend on it and no
diagnostic is produced), so zero-value synthesis terminates for self-referencing
pointer/struct cycles. -/
theorem c2_pointer_zero_value_is_null (e : GoType) :
    LangType (.pointer e) true = ("null", []) := by
  simp [LangType, IsValidInPogo]

/-- C3: when the operand's lowered type equals the destination lowered type and the
shared type is not "Float", Convert emits a plain assignment with no cast; when both
are "Float", a plain assignment is emitted exactly when the conversion is not a
float64-to-float32 narrowing, which instead routes through Force.toFloat32, the
runtime's float32 truncation entry point. -/
theorem c3_convert_identical_lowered_types (register : String) (destType : GoType)
    (v : SsaValue) (lt : String) (hsrc : (LangType v.typ.underlying false).1 = lt) :
    (lt ≠ "Float" →
      Convert register lt destType v =
        (register ++ "=" ++ v.text ++ ";", (LangType v.typ.underlying false).2))
    ∧ (lt = "Float" →
        (¬(v.typ.underlying = .basic .float64 ∧ destType.underlying = .basic .float32) →
          Convert register lt destType v =
            (register ++ "=" ++ v.text ++ ";", (LangType v.typ.underlying false).2))
        ∧ ((v.typ.underlying = .basic .float64 ∧ destType.underlying = .basic .float32) →
          Convert register lt destType v =
            (register ++ "=Force.toFloat32(" ++ v.text ++ ");",
             (LangType v.typ.underlying false).2))) := by
  constructor
  · intro hne
    simp [Convert, hsrc, hne, IndirectValue]
  · intro hF
    subst hF
    constructor
    · intro hnot
      simp only [Convert, hsrc, IndirectValue]
      norm_num
      split
      · rename_i h1 h2
        exact absurd ⟨h1, h2⟩ hnot
      · rfl
    · rintro ⟨h1, h2⟩
      simp [Convert, hsrc, IndirectValue, h1, h2, LangType, IsValidInPogo]

/-- Witness for C3: an int operand converted to a uint32 destination (both lowered
"Int") is emitted as the plain assignment r=x;. -/
theorem c3_convert_identical_lowered_types_witness :
    (LangType ((⟨.basic .int, "x"⟩ : SsaValue).typ.underlying) false).1 = "Int" ∧
    Convert "r" "Int" (.basic .uint32) ⟨.basic .int, "x"⟩ =
      ("r" ++ "=" ++ "x" ++ ";",
       (LangType ((⟨.basic .int, "x"⟩ : SsaValue).typ.underlying) false).2) := by
  have h : (LangType ((⟨.basic .int, "x"⟩ : SsaValue).typ.underlying) false).1 = "Int" := by
    simp [GoType.underlying, LangType, IsValidInPogo]
  exact ⟨h, (c3_convert_identical_lowered_types "r" (.basic .uint32)
    ⟨.basic .int, "x"⟩ "Int" h).1 (by decide)⟩

/-- C4 counterexample: a uint8-typed operand (lowered type "Int") converted to an
int8 destination (also lowered "Int") takes Convert's identical-lowered-type fast
path and is emitted as a plain assignment with no bit-width/signedness coercion, so
it is not the case that every source branch of an integer-destination conversion
applies the destination coercion. -/
theorem c4_int_destination_counterexample :
    ¬ ∀ (register : String) (destType : GoType) (v : SsaValue),
        (LangType destType false).1 = "Int" →
        (Convert register "Int" destType v).1 = convertToIntSpec register destType v := by
  intro h
  have hc := h "r" (.basic .int8) ⟨.basic .uint8, "x"⟩ (by simp [LangType, IsValidInPogo])
  simp [Convert, convertToIntSpec, LangType, IsValidInPogo, intTypeCoersion,
    IndirectValue, GoType.underlying] at hc

/-- C4 amended: for every call that reaches the integer-destination dispatch — the
operand's lowered type differs from "Int"; identical lowered types take the plain
assignment fast path — the emitted code is exactly the claim's form: the
branch-specific expression (GOint64.toInt for 64-bit-emulated sources, the
floor/ceil truncation toward zero for float sources, a cast otherwise) wrapped in
the destination type's bit-width/signedness coercion before assignment. -/
theorem c4_amended_int_destination_coerces (register : String) (destType : GoType)
    (v : SsaValue) (h : (LangType v.typ.underlying false).1 ≠ "Int") :
    (Convert register "Int" destType v).1 = convertToIntSpec register destType v := by
  simp only [Convert, convertToIntSpec, IndirectValue]
  rw [if_neg (by simp [h])]
  simp only [String.append_assoc]
  rfl

/-- Witness for the amended C4: a float32 operand converted to an int8 destination
goes through the truncation expression wrapped in the destination coercion. -/
theorem c4_amended_int_destination_coerces_witness :
    (LangType ((⟨.basic .float32, "f"⟩ : SsaValue).typ.underlying) false).1 ≠ "Int" ∧
    (Convert "r" "Int" (.basic .int8) ⟨.basic .float32, "f"⟩).1 =
      convertToIntSpec "r" (.basic .int8) ⟨.basic .float32, "f"⟩ := by
  have h : (LangType ((⟨.basic .float32, "f"⟩ : SsaValue).typ.underlying) false).1 ≠ "Int" := by
    simp [GoType.underlying, LangType, IsValidInPogo]
  exact ⟨h, c4_amended_int_destination_coerces "r" (.basic .int8) ⟨.basic .float32, "f"⟩ h⟩

/-- C5 counterexample: a byte-slice-typed operand (lowered type "Slice", not a
string) converted to a rune-slice destination takes Convert's
identical-lowered-type fast path and is emitted as a plain assignment with no
error, so it is not the case that every non-string source of a rune- or byte-slice
destination logs an error and emits no code. -/
theorem c5_slice_destination_counterexample :
    ¬ ∀ (register : String) (destType : GoType) (v : SsaValue) (e : GoType),
        destType.underlying = .slice e →
        (e.underlying = .basic .int32 ∨ e.underlying = .basic .uint8) →
        (LangType v.typ.underlying false).1 ≠ "String" →
        ((Convert register "Slice" destType v).1 = "" ∧
          LogLevel.error ∈ ((Convert register "Slice" destType v).2.map LogMsg.level)) := by
  intro h
  have hc := h "r" (.slice (.basic .int32)) ⟨.slice (.basic .uint8), "x"⟩ (.basic .int32)
    (by simp [GoType.underlying])
    (by simp [GoType.underlying])
    (by simp [GoType.underlying, LangType, IsValidInPogo])
  simp [Convert, LangType, IsValidInPogo, IndirectValue, GoType.underlying] at hc

/-- C5 amended: with a rune- or byte-slice destination (lowered "Slice"), a source
whose lowered type is neither "String" nor "Slice" (an identically-lowered slice
source takes the plain-assignment fast path) is an error: Convert logs it and emits
no code; a string source routes through the runtime's UTF-8 encoding entry points —
Go_haxegoruntime_UUTTFF8toRRunes over Force.toUTF8slice for a rune-slice
destination, Force.toUTF8slice for a byte-slice destination. -/
theorem c5_amended_convert_to_slice (register : String) (destType : GoType)
    (v : SsaValue) (e : GoType) (hd : destType.underlying = .slice e) :
    ((LangType v.typ.underlying false).1 ≠ "String" →
      (LangType v.typ.underlying false).1 ≠ "Slice" →
      Convert register "Slice" destType v =
        ("", (LangType v.typ.underlying false).2 ++
          [⟨.error,
             "haxe.Convert() - Unexpected type to convert to Slice ([]rune or []byte): " ++
               (LangType v.typ.underlying false).1⟩]))
    ∧ ((LangType v.typ.underlying false).1 = "String" → e.underlying = .basic .int32 →
        Convert register "Slice" destType v =
          (register ++
            "=Go_haxegoruntime_UUTTFF8toRRunes.callFromRT(this._goroutine,Force.toUTF8slice(this._goroutine," ++
            v.text ++ "));", (LangType v.typ.underlying false).2))
    ∧ ((LangType v.typ.underlying false).1 = "String" → e.underlying = .basic .uint8 →
        Convert register "Slice" destType v =
          (register ++ "=Force.toUTF8slice(this._goroutine," ++ v.text ++ ");",
           (LangType v.typ.underlying false).2)) := by
  refine ⟨?_, ?_, ?_⟩
  · intro h1 h2
    simp [Convert, h1, h2, IndirectValue]
  · intro h1 h2
    simp [Convert, h1, h2, hd, IndirectValue]
  · intro h1 h2
    simp [Convert, h1, h2, hd, IndirectValue]

/-- Witness for the amended C5: a bool operand converted to a byte-slice destination
logs an error and emits no code. -/
theorem c5_amended_convert_to_slice_witness :
    (LangType ((⟨.basic .bool, "b"⟩ : SsaValue).typ.underlying) false).1 ≠ "String" ∧
    (LangType ((⟨.basic .bool, "b"⟩ : SsaValue).typ.underlying) false).1 ≠ "Slice" ∧
    Convert "r" "Slice" (.slice (.basic .uint8)) ⟨.basic .bool, "b"⟩ =
      ("", (LangType ((⟨.basic .bool, "b"⟩ : SsaValue).typ.underlying) false).2 ++
        [⟨.error,
           "haxe.Convert() - Unexpected type to convert to Slice ([]rune or []byte): " ++
             (LangType ((⟨.basic .bool, "b"⟩ : SsaValue).typ.underlying) false).1⟩]) := by
  have h1 : (LangType ((⟨.basic .bool, "b"⟩ : SsaValue).typ.underlying) false).1 ≠ "String" := by
    simp [GoType.underlying, LangType, IsValidInPogo]
  have h2 : (LangType ((⟨.basic .bool, "b"⟩ : SsaValue).typ.underlying) false).1 ≠ "Slice" := by
    simp [GoType.underlying, LangType, IsValidInPogo]
  exact ⟨h1, h2, (c5_amended_convert_to_slice "r" (.slice (.basic .uint8)) ⟨.basic .bool, "b"⟩
    (.basic .uint8) (by simp [GoType.underlying])).1 h1 h2⟩

/-- C6 counterexample: the untyped-integer situation logs a warning yet substitutes
the sentinel "UNTYPED_INT", which the source's own comment documents as causing a
Haxe compilation error if ever used — so it is not the case that every warning
situation substitutes a fallback that the target language's compilation accepts. -/
theorem c6_failure_policy_counterexample :
    ¬ ∀ (t : GoType) (riv : Bool),
        (localLog t = some .warning → ¬ FailsHaxeCompilation (LangType t riv).1)
        ∧ (localLog t = some .error → FailsHaxeCompilation (LangType t riv).1) := by
  intro h
  exact (h (.basic .untypedInt) false).1 (by simp [localLog])
    (by simp [LangType, IsValidInPogo, FailsHaxeCompilation])

/-- C6 amended: apart from the deliberate untyped-integer situation (which warns
and substitutes the compilation-failing sentinel "UNTYPED_INT"), every situation
the lowering engine logs as a warning substitutes a value outside the
failing-sentinel set, and every situation it logs as an error substitutes a
compilation-failing sentinel. -/
theorem c6_amended_failure_policy (t : GoType) (riv : Bool)
    (hne : t ≠ .basic .untypedInt) :
    (localLog t = some .warning → ¬ FailsHaxeCompilation (LangType t riv).1)
    ∧ (localLog t = some .error → FailsHaxeCompilation (LangType t riv).1) := by
  cases t with
  | basic k =>
    cases k <;> cases riv <;>
      simp_all [localLog, LangType, IsValidInPogo, FailsHaxeCompilation]
  | unhandled r =>
    cases riv <;> simp [localLog, LangType, IsValidInPogo, FailsHaxeCompilation]
  | iface => simp [localLog]
  | named n u => simp [localLog]
  | chan e => simp [localLog]
  | map k e => simp [localLog]
  | slice e => simp [localLog]
  | array n e => simp [localLog]
  | struct fs => simp [localLog]
  | tuple es => simp [localLog]
  | pointer e => simp [localLog]
  | signature => simp [localLog]
  | iterator => simp [localLog]

/-- Witness for the amended C6 at the unsafe-pointer warning situation. -/
theorem c6_amended_failure_policy_witness :
    (GoType.basic .unsafePointer ≠ GoType.basic .untypedInt)
    ∧ ((localLog (.basic .unsafePointer) = some .warning →
         ¬ FailsHaxeCompilation (LangType (.basic .unsafePointer) false).1)
      ∧ (localLog (.basic .unsafePointer) = some .error →
         FailsHaxeCompilation (LangType (.basic .unsafePointer) false).1)) :=
  ⟨by simp, c6_amended_failure_policy (.basic .unsafePointer) false (by simp)⟩

theorem renderName_length_pos (t : GoType) : 0 < (renderName t).length := by
  simp [renderName, haxeStringConst, String.length_append]
  left; left; decide

theorem dupTag_ne (nam : String) (hpos : 0 < nam.length) (id : Nat) :
    dupTag nam id ≠ nam := by
  intro he
  have hl := congrArg String.length he
  rw [dupTag, String.length_append, String.length_append, String.length_append] at hl
  have h1 : (String.mk nam.data.dropLast).length = nam.length - 1 := by
    show nam.data.dropLast.length = nam.data.length - 1
    exact List.length_dropLast _
  have h2 : (" (duplicate type name! this id=" : String).length = 31 := by decide
  have h3 : (")\"" : String).length = 2 := by decide
  rw [h1, h2, h3] at hl
  omega

theorem typIDTable_first_mem (pre : List (GoType × Nat)) (a : GoType × Nat)
    (rest : List (GoType × Nat)) :
    ∀ (seen : List String), renderName a.1 ∉ seen →
    (∀ p ∈ pre, renderName p.1 ≠ renderName a.1) →
    (renderName a.1, a.2) ∈ typIDTable (pre ++ a :: rest) seen := by
  induction pre with
  | nil =>
    intro seen hseen _
    obtain ⟨ta, va⟩ := a
    simp only [List.nil_append, typIDTable]
    rw [if_pos (Nat.pos_iff_ne_zero.mp (renderName_length_pos ta)), if_neg hseen]
    exact List.mem_cons_self _ _
  | cons p pre ih =>
    intro seen hseen hpre
    obtain ⟨tp, vp⟩ := p
    simp only [List.cons_append, typIDTable]
    rw [if_pos (Nat.pos_iff_ne_zero.mp (renderName_length_pos tp))]
    by_cases hmem : renderName tp ∈ seen
    · rw [if_pos hmem]
      exact List.mem_cons_of_mem _
        (ih seen hseen (fun q hq => hpre q (List.mem_cons_of_mem _ hq)))
    · rw [if_neg hmem]
      refine List.mem_cons_of_mem _
        (ih (renderName tp :: seen) ?_ (fun q hq => hpre q (List.mem_cons_of_mem _ hq)))
      intro hcon
      rcases List.mem_cons.mp hcon with h | h
      · exact hpre (tp, vp) (List.mem_cons_self _ _) h.symm
      · exact hseen h

theorem typIDTable_dup_mem (pre : List (GoType × Nat)) (b : GoType × Nat)
    (rest : List (GoType × Nat)) :
    ∀ (seen : List String),
    (renderName b.1 ∈ seen ∨ ∃ p ∈ pre, renderName p.1 = renderName b.1) →
    (dupTag (renderName b.1) b.2, b.2) ∈ typIDTable (pre ++ b :: rest) seen := by
  induction pre with
  | nil =>
    intro seen h
    obtain ⟨tb, vb⟩ := b
    have hin : renderName tb ∈ seen := by
      rcases h with h | ⟨p, hp, _⟩
      · exact h
      · exact absurd hp (List.not_mem_nil p)
    simp only [List.nil_append, typIDTable]
    rw [if_pos (Nat.pos_iff_ne_zero.mp (renderName_length_pos tb)), if_pos hin]
    exact List.mem_cons_self _ _
  | cons p pre ih =>
    intro seen h
    obtain ⟨tp, vp⟩ := p
    simp only [List.cons_append, typIDTable]
    rw [if_pos (Nat.pos_iff_ne_zero.mp (renderName_length_pos tp))]
    by_cases hmem : renderName tp ∈ seen
    · rw [if_pos hmem]
      refine List.mem_cons_of_mem _ (ih seen ?_)
      rcases h with h | ⟨q, hq, hqe⟩
      · exact Or.inl h
      · rcases List.mem_cons.mp hq with rfl | hq'
        · exact Or.inl (by rw [← hqe]; exact hmem)
        · exact Or.inr ⟨q, hq', hqe⟩
    · rw [if_neg hmem]
      refine List.mem_cons_of_mem _ (ih (renderName tp :: seen) ?_)
      rcases h with h | ⟨q, hq, hqe⟩
      · exact Or.inl (List.mem_cons_of_mem _ h)
      · rcases List.mem_cons.mp hq with rfl | hq'
        · exact Or.inl (by rw [← hqe]; exact List.mem_cons_self _ _)
        · exact Or.inr ⟨q, hq', hqe⟩

/-- C7: in the emitted typIDs name-to-ID table, when a later registered type renders
the same string form as an earlier one (the earlier being the first with that form),
the first keeps its unmodified rendered name paired with its own ID, the later entry
is emitted under a name tagged with the duplicate marker including its own ID, and
the tagged name differs from the untagged one — the first entry is not overwritten
and the two IDs are never silently aliased. -/
theorem c7_duplicate_type_name_policy (pre mid post : List (GoType × Nat))
    (a b : GoType × Nat) (hr : renderName a.1 = renderName b.1)
    (hfirst : ∀ p ∈ pre, renderName p.1 ≠ renderName a.1) :
    (renderName a.1, a.2) ∈ typIDTable (pre ++ a :: (mid ++ b :: post)) []
    ∧ (dupTag (renderName b.1) b.2, b.2) ∈ typIDTable (pre ++ a :: (mid ++ b :: post)) []
    ∧ dupTag (renderName b.1) b.2 ≠ renderName a.1 := by
  refine ⟨?_, ?_, ?_⟩
  · exact typIDTable_first_mem pre a (mid ++ b :: post) [] (List.not_mem_nil _) hfirst
  · have heq : pre ++ a :: (mid ++ b :: post) = (pre ++ a :: mid) ++ b :: post := by
      simp [List.append_assoc]
    rw [heq]
    exact typIDTable_dup_mem (pre ++ a :: mid) b post [] (Or.inr ⟨a, by simp, hr⟩)
  · rw [hr]
    exact dupTag_ne _ (renderName_length_pos b.1) b.2

/-- Witness for C7: two distinct named types rendering the identical name "p.T":
the first keeps its rendered name with ID 1, the second is emitted tagged with its
own ID 2 under a different name. -/
theorem c7_duplicate_type_name_policy_witness :
    (renderName (GoType.named "p.T" (GoType.basic .int)), 1) ∈
        typIDTable [(GoType.named "p.T" (GoType.basic .int), 1),
          (GoType.named "p.T" (GoType.basic .bool), 2)] []
    ∧ (dupTag (renderName (GoType.named "p.T" (GoType.basic .bool))) 2, 2) ∈
        typIDTable [(GoType.named "p.T" (GoType.basic .int), 1),
          (GoType.named "p.T" (GoType.basic .bool), 2)] []
    ∧ dupTag (renderName (GoType.named "p.T" (GoType.basic .bool))) 2 ≠
        renderName (GoType.named "p.T" (GoType.basic .int)) := by
  have h := c7_duplicate_type_name_policy [] [] [] (GoType.named "p.T" (GoType.basic .int), 1)
    (GoType.named "p.T" (GoType.basic .bool), 2) (by simp [renderName, GoType.str])
    (by intro p hp; exact absurd hp (List.not_mem_nil p))
  simpa using h

/-- C8: in the emitted identity and assignability tables, isIdentical(A,A) returns
true for every registered type — both emitted functions return true when the two
IDs are equal — and for every ordered pair of IDs, isIdentical(A,B) returning true
implies isAssignableTo(A,B) returns true. -/
theorem c8_identity_reflexive_and_implies_assignable (reg : List (GoType × Nat))
    (a b : Nat) :
    emittedIsIdentical reg a a = true
    ∧ (emittedIsIdentical reg a b = true → emittedIsAssignableTo reg a b = true) := by
  constructor
  · simp [emittedIsIdentical]
  · intro h
    by_cases hab : a = b
    · simp [emittedIsAssignableTo, hab]
    · rw [emittedIsIdentical, if_neg hab] at h
      rw [emittedIsAssignableTo, if_neg hab]
      rw [List.any_eq_true] at h ⊢
      obtain ⟨V, hV, hVp⟩ := h
      refine ⟨V, hV, ?_⟩
      rw [Bool.and_eq_true] at hVp ⊢
      obtain ⟨hVa, hinner⟩ := hVp
      refine ⟨hVa, ?_⟩
      rw [List.any_eq_true] at hinner ⊢
      obtain ⟨T, hT, hTp⟩ := hinner
      refine ⟨T, hT, ?_⟩
      simp only [Bool.and_eq_true] at hTp ⊢
      obtain ⟨⟨h1, h2⟩, h3⟩ := hTp
      exact ⟨⟨h1, h2⟩, by simp [AssignableTo, h3]⟩

/-- Witness for C8 at the equal ID pair (5,5) over the empty registry: both table
functions return true on it. -/
theorem c8_identity_reflexive_and_implies_assignable_witness :
    emittedIsIdentical [] 5 5 = true ∧ emittedIsAssignableTo [] 5 5 = true :=
  ⟨(c8_identity_reflexive_and_implies_assignable [] 5 5).1,
   (c8_identity_reflexive_and_implies_assignable [] 5 5).2
     (c8_identity_reflexive_and_implies_assignable [] 5 5).1⟩

/-- C9: a ChangeType whose source value is an unsafe-pointer basic type and whose
destination is a nominal type with no native Haxe mapping assigns the destination
register a freshly zeroed value of the destination type — the lowering engine's
zero value — not the source value. -/
theorem c9_changetype_unsafe_pointer_zeroes (register : String) (regTyp : GoType)
    (val : SsaValue) (_hn : regTyp.isNamed = true)
    (hh : getHaxeClass regTyp.str = "")
    (hu : val.typ.underlying = .basic .unsafePointer) :
    ChangeType register regTyp (.value val) =
      register ++ "=" ++ (LangType regTyp true).1 ++ ";" := by
  simp [ChangeType, hh, hu]

/-- Witness for C9: changing an unsafe-pointer value to the nominal type main.T
(underlying int, no Haxe mapping) assigns the zero value of main.T. -/
theorem c9_changetype_unsafe_pointer_zeroes_witness :
    (GoType.named "main.T" (GoType.basic .int)).isNamed = true
    ∧ getHaxeClass (GoType.named "main.T" (GoType.basic .int)).str = ""
    ∧ ChangeType "r" (GoType.named "main.T" (GoType.basic .int))
        (.value ⟨.basic .unsafePointer, "ptr"⟩) =
      "r" ++ "=" ++ (LangType (GoType.named "main.T" (GoType.basic .int)) true).1 ++ ";" := by
  have h1 : (GoType.named "main.T" (GoType.basic .int)).isNamed = true := by
    simp [GoType.isNamed]
  have h2 : getHaxeClass (GoType.named "main.T" (GoType.basic .int)).str = "" := by
    simp [GoType.str, getHaxeClass, splitOnChar]
  exact ⟨h1, h2, c9_changetype_unsafe_pointer_zeroes "r"
    (GoType.named "main.T" (GoType.basic .int)) ⟨.basic .unsafePointer, "ptr"⟩ h1 h2
    (by simp [GoType.underlying])⟩

/-- C10: TypeAssert with an empty destination register emits nothing, whatever the
asserted type, operand, or comma-ok mode; with a non-empty register it emits
exactly one of the runtime's two registry-ID comparison entry points —
Interface.assertOk for the two-result form, Interface.assert for the
assert-or-abort form. -/
theorem c10_typeassert_empty_register_and_entry_points (reg : List (GoType × Nat))
    (register : String) (v : SsaValue) (t : GoType) (ok : Bool) :
    (register = "" → TypeAssert reg register v t ok = "")
    ∧ (register ≠ "" →
        TypeAssert reg register v t ok =
          if ok then
            register ++ "=Interface.assertOk(" ++ LogTypeUse reg t ++ "," ++ v.text ++ ");"
          else
            register ++ "=Interface.assert(" ++ LogTypeUse reg t ++ "," ++ v.text ++ ");") := by
  constructor
  · intro h
    simp [TypeAssert, h]
  · intro h
    cases ok <;> simp [TypeAssert, h, IndirectValue]

/-- Witness for C10: an empty register emits nothing; the register x with the
comma-ok form emits the Interface.assertOk call. -/
theorem c10_typeassert_empty_register_and_entry_points_witness :
    TypeAssert [] "" ⟨.iface, "i"⟩ (.basic .int) true = ""
    ∧ TypeAssert [] "x" ⟨.iface, "i"⟩ (.basic .int) true =
        "x" ++ "=Interface.assertOk(" ++ LogTypeUse [] (.basic .int) ++ "," ++ "i" ++ ");" := by
  refine ⟨(c10_typeassert_empty_register_and_entry_points [] "" ⟨.iface, "i"⟩
    (.basic .int) true).1 rfl, ?_⟩
  have h := (c10_typeassert_empty_register_and_entry_points [] "x" ⟨.iface, "i"⟩
    (.basic .int) true).2 (by decide)
  simpa using h
